import Mathlib

set_option autoImplicit false

/-!
Verification of the KMS device abstraction (`src/backends/native/meta-kms-device.c`)
as a shallow embedding.  Pure data is embedded as Lean structures; the backend
(`MetaKmsImplDevice` behaviour, which lives in other compilation units) is passed
in as explicit function parameters, so the theorems quantify over every possible
backend behaviour.  C out-parameters become extra inputs/outputs, `GList` becomes
`List`, `GError **` becomes `Except GError`.
-/

namespace MetaKms

/-- Bit for `META_KMS_DEVICE_FLAG_NO_MODE_SETTING` in the `MetaKmsDeviceFlag` bit-set. -/
def META_KMS_DEVICE_FLAG_NO_MODE_SETTING : Nat := 4

/-- Bit for `META_KMS_DEVICE_FLAG_HAS_ADDFB2` in the `MetaKmsDeviceFlag` bit-set. -/
def META_KMS_DEVICE_FLAG_HAS_ADDFB2 : Nat := 8

/-- `META_KMS_UPDATE_CHANGE_NONE`: the empty `MetaKmsUpdateChanges` bit-set. -/
def META_KMS_UPDATE_CHANGE_NONE : Nat := 0

/-- GLib error: an error domain (quark) together with a message.  The device code
only ever compares the domain against `META_KMS_ERROR`. -/
structure GError where
  domain : Nat
  message : String
deriving DecidableEq, Repr

/-- The `META_KMS_ERROR` domain quark (expected/domain errors). -/
def META_KMS_ERROR : Nat := 1

/-- The `G_IO_ERROR` domain quark (used for the construction-exhausted error). -/
def G_IO_ERROR : Nat := 2

/-- `MetaKmsPlaneType` (primary / cursor / overlay). -/
inductive MetaKmsPlaneType where
  | primary
  | cursor
  | overlay
deriving DecidableEq, Repr

/-- A CRTC handle carrying its stable numeric kernel id. -/
structure MetaKmsCrtc where
  id : Nat
deriving DecidableEq, Repr

/-- A connector handle carrying its stable numeric kernel id. -/
structure MetaKmsConnector where
  id : Nat
deriving DecidableEq, Repr

/-- A plane handle: kernel id, plane type, and the set of CRTC ids the plane may
be assigned to (the data behind the usability predicate). -/
structure MetaKmsPlane where
  id : Nat
  plane_type : MetaKmsPlaneType
  possible_crtcs : List Nat
deriving DecidableEq, Repr

/-- `meta_kms_plane_get_plane_type` (accessor from meta-kms-plane.c). -/
def meta_kms_plane_get_plane_type (plane : MetaKmsPlane) : MetaKmsPlaneType :=
  plane.plane_type

/-- Modelled from the spec: `meta_kms_plane_is_usable_with` is defined in
meta-kms-plane.c, which is not part of this repository snapshot.  Per the spec it
is a backend-defined compatibility predicate (bitmask intersection between the
plane allowed-CRTC set and the CRTC); we model it as membership of the CRTC id in
the plane's `possible_crtcs` set.  The query-helper theorems hold for any
predicate of this shape. -/
def meta_kms_plane_is_usable_with (plane : MetaKmsPlane) (crtc : MetaKmsCrtc) : Bool :=
  plane.possible_crtcs.contains crtc.id

/-- `MetaKmsDeviceCaps`: immutable capability struct detected by the backend. -/
structure MetaKmsDeviceCaps where
  has_cursor_size : Bool
  cursor_width : Nat
  cursor_height : Nat
  prefers_shadow_buffer : Bool
  uses_monotonic_clock : Bool
  addfb2_modifiers : Bool
deriving DecidableEq, Repr

/-- `MetaKmsImplDevice`: the privileged-context device object owned by the
capability backend.  We embed the state the device code reads out of it; the
`disabled` field models the backend's disabled state (see
`meta_kms_impl_device_disable`). -/
structure MetaKmsImplDevice where
  crtcs : List MetaKmsCrtc
  connectors : List MetaKmsConnector
  planes : List MetaKmsPlane
  caps : MetaKmsDeviceCaps
  fallback_modes : List Nat
  driver_name : String
  driver_description : String
  path : String
  disabled : Bool
deriving DecidableEq, Repr

/-- `meta_kms_impl_device_copy_crtcs`: a fresh copy of the backend CRTC list. -/
def meta_kms_impl_device_copy_crtcs (impl_device : MetaKmsImplDevice) : List MetaKmsCrtc :=
  impl_device.crtcs

/-- `meta_kms_impl_device_copy_connectors`: a fresh copy of the backend connector list. -/
def meta_kms_impl_device_copy_connectors (impl_device : MetaKmsImplDevice) : List MetaKmsConnector :=
  impl_device.connectors

/-- `meta_kms_impl_device_copy_planes`: a fresh copy of the backend plane list. -/
def meta_kms_impl_device_copy_planes (impl_device : MetaKmsImplDevice) : List MetaKmsPlane :=
  impl_device.planes

/-- `struct _MetaKmsDevice`: the public-facing device handle with its cached
topology snapshot. -/
structure MetaKmsDevice where
  impl_device : MetaKmsImplDevice
  flags : Nat
  path : String
  driver_name : String
  driver_description : String
  crtcs : List MetaKmsCrtc
  connectors : List MetaKmsConnector
  planes : List MetaKmsPlane
  caps : MetaKmsDeviceCaps
  fallback_modes : List Nat
deriving DecidableEq, Repr

/-- `meta_kms_device_get_path`. -/
def meta_kms_device_get_path (device : MetaKmsDevice) : String :=
  device.path

/-- `meta_kms_device_get_flags`. -/
def meta_kms_device_get_flags (device : MetaKmsDevice) : Nat :=
  device.flags

/-- `meta_kms_device_get_planes`. -/
def meta_kms_device_get_planes (device : MetaKmsDevice) : List MetaKmsPlane :=
  device.planes

/-- `meta_kms_device_get_crtcs`. -/
def meta_kms_device_get_crtcs (device : MetaKmsDevice) : List MetaKmsCrtc :=
  device.crtcs

/-- `meta_kms_device_get_connectors`. -/
def meta_kms_device_get_connectors (device : MetaKmsDevice) : List MetaKmsConnector :=
  device.connectors

/-- `meta_kms_device_get_cursor_size`: C out-parameters `*out_cursor_width` and
`*out_cursor_height` are modelled by threading their current contents through
and returning the (possibly updated) contents alongside the boolean result. -/
def meta_kms_device_get_cursor_size (device : MetaKmsDevice)
    (out_cursor_width out_cursor_height : Nat) : Bool × Nat × Nat :=
  if device.caps.has_cursor_size then
    (true, device.caps.cursor_width, device.caps.cursor_height)
  else
    (false, out_cursor_width, out_cursor_height)

/-- Loop body of `get_plane_with_type_for`: walk the cached plane list, skip
planes of the wrong type, return the first one usable with the CRTC. -/
def get_plane_with_type_for_loop (crtc : MetaKmsCrtc) (t : MetaKmsPlaneType) :
    List MetaKmsPlane → Option MetaKmsPlane
  | [] => none
  | plane :: l =>
    if meta_kms_plane_get_plane_type plane ≠ t then
      get_plane_with_type_for_loop crtc t l
    else if meta_kms_plane_is_usable_with plane crtc then
      some plane
    else
      get_plane_with_type_for_loop crtc t l

/-- `get_plane_with_type_for`. -/
def get_plane_with_type_for (device : MetaKmsDevice) (crtc : MetaKmsCrtc)
    (t : MetaKmsPlaneType) : Option MetaKmsPlane :=
  get_plane_with_type_for_loop crtc t (meta_kms_device_get_planes device)

/-- `meta_kms_device_get_primary_plane_for`. -/
def meta_kms_device_get_primary_plane_for (device : MetaKmsDevice) (crtc : MetaKmsCrtc) :
    Option MetaKmsPlane :=
  get_plane_with_type_for device crtc MetaKmsPlaneType.primary

/-- `meta_kms_device_get_cursor_plane_for`. -/
def meta_kms_device_get_cursor_plane_for (device : MetaKmsDevice) (crtc : MetaKmsCrtc) :
    Option MetaKmsPlane :=
  get_plane_with_type_for device crtc MetaKmsPlaneType.cursor

/-- Modelled from the spec: `meta_kms_impl_device_disable` (meta-kms-impl-device.c
is not part of this repository snapshot).  Per the spec the backend relinquishes
all display outputs as a single kernel-level action, and disable is idempotent;
we model it as entering the disabled state. -/
def meta_kms_impl_device_disable (impl_device : MetaKmsImplDevice) : MetaKmsImplDevice :=
  { impl_device with disabled := true }

/-- `disable_device_in_impl`: the task body dispatched into the privileged
context; it calls `meta_kms_impl_device_disable` on the impl device. -/
def disable_device_in_impl (impl_device : MetaKmsImplDevice) : MetaKmsImplDevice :=
  meta_kms_impl_device_disable impl_device

/-- `meta_kms_device_disable`: dispatches `disable_device_in_impl` synchronously
(error out-parameter is passed as NULL, so no error is ever surfaced); the
dispatch itself adds nothing beyond running the task body on the impl device. -/
def meta_kms_device_disable (device : MetaKmsDevice) : MetaKmsDevice :=
  { device with impl_device := disable_device_in_impl device.impl_device }

/-- `meta_kms_device_update_states_in_impl`.  The backend call
`meta_kms_impl_device_update_states` (another compilation unit) is a parameter:
given the current impl-device state and the crtc/connector ids it returns the
change bit-set and the impl device state after re-deriving its lists.  On
`META_KMS_UPDATE_CHANGE_NONE` the function returns early; otherwise it frees the
three cached lists and replaces them with fresh backend copies. -/
def meta_kms_device_update_states_in_impl
    (impl_update_states : MetaKmsImplDevice → Nat → Nat → Nat × MetaKmsImplDevice)
    (device : MetaKmsDevice) (crtc_id connector_id : Nat) : Nat × MetaKmsDevice :=
  let r := impl_update_states device.impl_device crtc_id connector_id
  let changes := r.1
  let impl_device := r.2
  if changes = META_KMS_UPDATE_CHANGE_NONE then
    (changes, { device with impl_device := impl_device })
  else
    (changes,
     { device with
       impl_device := impl_device
       crtcs := meta_kms_impl_device_copy_crtcs impl_device
       connectors := meta_kms_impl_device_copy_connectors impl_device
       planes := meta_kms_impl_device_copy_planes impl_device })

/-- An opaque `MetaKmsUpdate` description. -/
structure MetaKmsUpdate where
  id : Nat
deriving DecidableEq, Repr

/-- An opaque `MetaKmsFeedback` result object. -/
structure MetaKmsFeedback where
  id : Nat
deriving DecidableEq, Repr

/-- `PostUpdateData`: the update description and flags wrapped into the task. -/
structure PostUpdateData where
  update : MetaKmsUpdate
  flags : Nat

/-- `process_update_in_impl`: the task body run in the privileged context; it
hands the wrapped update and flags to the backend
(`meta_kms_impl_device_process_update`, a parameter here), whose contract is
`Feedback | Error`. -/
def process_update_in_impl
    (impl_process_update : MetaKmsImplDevice → MetaKmsUpdate → Nat → Except GError MetaKmsFeedback)
    (device : MetaKmsDevice) (data : PostUpdateData) : Except GError MetaKmsFeedback :=
  impl_process_update device.impl_device data.update data.flags

/-- `meta_kms_device_process_update_sync`: wraps update and flags into
`PostUpdateData` and dispatches `process_update_in_impl` synchronously,
returning its result to the caller. -/
def meta_kms_device_process_update_sync
    (impl_process_update : MetaKmsImplDevice → MetaKmsUpdate → Nat → Except GError MetaKmsFeedback)
    (device : MetaKmsDevice) (update : MetaKmsUpdate) (flags : Nat) :
    Except GError MetaKmsFeedback :=
  process_update_in_impl impl_process_update device { update := update, flags := flags }

/-- The closed set of impl-device GTypes the constructor may instantiate. -/
inductive ImplDeviceGType where
  | atomic
  | simple
  | dummy
deriving DecidableEq, Repr

/-- The result of `g_initable_new` for an impl-device GType: `Except` models the
`GError **` out-parameter.  Construction behaviour of the three backends lives
in other compilation units, so it is a parameter of this shape everywhere. -/
abbrev GInitableNew :=
  ImplDeviceGType → String → Nat → Except GError MetaKmsImplDevice

/-- The error set by `meta_create_kms_impl_device` when every candidate fails. -/
def noSuitableBackendError : GError :=
  { domain := G_IO_ERROR, message := "No suitable mode setting backend found" }

/-- The candidate loop of `meta_create_kms_impl_device` over `impl_device_types`.
Besides the C result it returns the list of GTypes actually attempted, in order,
so that reachability claims can be stated.  A failed candidate's `local_error`
is dropped (it is only logged, and only when its domain is not `META_KMS_ERROR`,
which does not affect control flow); the loop then continues with the next
candidate. -/
def try_impl_device_types (ginit : GInitableNew) (path : String) (flags : Nat) :
    List ImplDeviceGType → Except GError MetaKmsImplDevice × List ImplDeviceGType
  | [] => (Except.error noSuitableBackendError, [])
  | t :: rest =>
    match ginit t path flags with
    | Except.ok impl_device => (Except.ok impl_device, [t])
    | Except.error _ =>
      let r := try_impl_device_types ginit path flags rest
      (r.1, t :: r.2)

/-- `meta_create_kms_impl_device`: with `META_KMS_DEVICE_FLAG_NO_MODE_SETTING`
set, instantiate the Dummy backend directly (its error is passed through);
otherwise run the candidate loop over Atomic then Simple.  The second component
is the list of GTypes attempted. -/
def meta_create_kms_impl_device (ginit : GInitableNew) (path : String) (flags : Nat) :
    Except GError MetaKmsImplDevice × List ImplDeviceGType :=
  if flags &&& META_KMS_DEVICE_FLAG_NO_MODE_SETTING ≠ 0 then
    match ginit ImplDeviceGType.dummy path flags with
    | Except.ok impl_device => (Except.ok impl_device, [ImplDeviceGType.dummy])
    | Except.error e => (Except.error e, [ImplDeviceGType.dummy])
  else
    try_impl_device_types ginit path flags
      [ImplDeviceGType.atomic, ImplDeviceGType.simple]

/-- `meta_kms_device_new` (including the task body
`create_impl_device_in_impl`): on task failure the partially constructed GObject
is unreffed and the error returned; on success the device adopts the task
outputs field by field, then replaces the requested path with the
backend-reported one, then derives `HAS_ADDFB2` from the `addfb2_modifiers`
capability. -/
def meta_kms_device_new (ginit : GInitableNew) (path : String) (flags : Nat) :
    Except GError MetaKmsDevice :=
  match (meta_create_kms_impl_device ginit path flags).1 with
  | Except.error e => Except.error e
  | Except.ok impl_device =>
    let device0 : MetaKmsDevice :=
      { impl_device := impl_device
        flags := flags
        path := path
        crtcs := meta_kms_impl_device_copy_crtcs impl_device
        connectors := meta_kms_impl_device_copy_connectors impl_device
        planes := meta_kms_impl_device_copy_planes impl_device
        caps := impl_device.caps
        fallback_modes := impl_device.fallback_modes
        driver_name := impl_device.driver_name
        driver_description := impl_device.driver_description }
    let device1 := { device0 with path := impl_device.path }
    let device2 :=
      if device1.caps.addfb2_modifiers then
        { device1 with flags := device1.flags ||| META_KMS_DEVICE_FLAG_HAS_ADDFB2 }
      else
        device1
    Except.ok device2

/-! Concrete fixtures used by witnesses and counterexamples. -/

/-- A capability struct without cursor size and without addfb2 modifiers. -/
def capsPlain : MetaKmsDeviceCaps :=
  { has_cursor_size := false
    cursor_width := 0
    cursor_height := 0
    prefers_shadow_buffer := false
    uses_monotonic_clock := true
    addfb2_modifiers := false }

/-- A capability struct carrying a 64x64 cursor size. -/
def capsCursor : MetaKmsDeviceCaps :=
  { capsPlain with has_cursor_size := true, cursor_width := 64, cursor_height := 64 }

/-- A sample backend device state. -/
def implA : MetaKmsImplDevice :=
  { crtcs := [{ id := 31 }]
    connectors := [{ id := 41 }]
    planes := [{ id := 51, plane_type := MetaKmsPlaneType.primary, possible_crtcs := [31] }]
    caps := capsCursor
    fallback_modes := [1]
    driver_name := "i915"
    driver_description := "Intel Graphics"
    path := "/dev/dri/card0"
    disabled := false }

/-- A second backend device state with a different topology. -/
def implB : MetaKmsImplDevice :=
  { crtcs := [{ id := 32 }, { id := 33 }]
    connectors := [{ id := 42 }]
    planes := [{ id := 52, plane_type := MetaKmsPlaneType.cursor, possible_crtcs := [32] }]
    caps := capsPlain
    fallback_modes := []
    driver_name := "amdgpu"
    driver_description := "AMD Graphics"
    path := "/dev/dri/card1"
    disabled := false }

/-- The device handle whose cached snapshot mirrors `implA`. -/
def deviceA : MetaKmsDevice :=
  { impl_device := implA
    flags := 0
    path := implA.path
    crtcs := implA.crtcs
    connectors := implA.connectors
    planes := implA.planes
    caps := implA.caps
    fallback_modes := implA.fallback_modes
    driver_name := implA.driver_name
    driver_description := implA.driver_description }

/-- The device handle whose cached snapshot mirrors `implB`. -/
def deviceB : MetaKmsDevice :=
  { impl_device := implB
    flags := 0
    path := implB.path
    crtcs := implB.crtcs
    connectors := implB.connectors
    planes := implB.planes
    caps := implB.caps
    fallback_modes := implB.fallback_modes
    driver_name := implB.driver_name
    driver_description := implB.driver_description }

/-- A `g_initable_new` behaviour in which every backend construction fails with
a `META_KMS_ERROR` domain error. -/
def ginitFail : GInitableNew := fun _ _ _ =>
  Except.error { domain := META_KMS_ERROR, message := "construction failed" }

/-- A `g_initable_new` behaviour in which the Atomic backend succeeds with
`implA` and the other backends fail. -/
def ginitAtomicA : GInitableNew := fun t _ _ =>
  match t with
  | ImplDeviceGType.atomic => Except.ok implA
  | _ => Except.error { domain := META_KMS_ERROR, message := "construction failed" }

/-- A `g_initable_new` behaviour in which the Atomic backend succeeds with
`implB` (a backend without `addfb2_modifiers`) and the other backends fail. -/
def ginitAtomicB : GInitableNew := fun t _ _ =>
  match t with
  | ImplDeviceGType.atomic => Except.ok implB
  | _ => Except.error { domain := META_KMS_ERROR, message := "construction failed" }

/-- The device `meta_kms_device_new` builds from `implB` when the caller
requests exactly the `HAS_ADDFB2` flag. -/
def deviceB8 : MetaKmsDevice :=
  { deviceB with flags := META_KMS_DEVICE_FLAG_HAS_ADDFB2 }

/-- A backend update-states behaviour reporting a non-empty change set and the
fresh state `implB`. -/
def updateStatesToB : MetaKmsImplDevice → Nat → Nat → Nat × MetaKmsImplDevice :=
  fun _ _ _ => (1, implB)

/-- A backend update-states behaviour reporting an empty change set (while the
backend state is `implB`, so a partial adoption would be observable). -/
def updateStatesNone : MetaKmsImplDevice → Nat → Nat → Nat × MetaKmsImplDevice :=
  fun _ _ _ => (META_KMS_UPDATE_CHANGE_NONE, implB)

/-! Claims. -/

/-- C1: with the no-mode-setting flag set, construction attempts exactly the
Dummy backend (Atomic/Simple are never attempted); otherwise the candidates are
attempted in the fixed order Atomic then Simple, and a failure of Atomic
(whatever its error) never aborts selection: Simple is attempted next. -/
theorem create_backend_selection (ginit : GInitableNew) (path : String) (flags : Nat) :
    (flags &&& META_KMS_DEVICE_FLAG_NO_MODE_SETTING ≠ 0 →
      (meta_create_kms_impl_device ginit path flags).2 = [ImplDeviceGType.dummy]) ∧
    (flags &&& META_KMS_DEVICE_FLAG_NO_MODE_SETTING = 0 →
      (meta_create_kms_impl_device ginit path flags).2 =
        match ginit ImplDeviceGType.atomic path flags with
        | Except.ok _ => [ImplDeviceGType.atomic]
        | Except.error _ => [ImplDeviceGType.atomic, ImplDeviceGType.simple]) := by
  constructor
  · intro h
    rw [meta_create_kms_impl_device, if_pos h]
    cases ginit ImplDeviceGType.dummy path flags <;> rfl
  · intro h
    rw [meta_create_kms_impl_device, if_neg (fun hc => hc h)]
    cases ha : ginit ImplDeviceGType.atomic path flags with
    | ok impl_device => simp [try_impl_device_types, ha]
    | error e =>
      cases hb : ginit ImplDeviceGType.simple path flags <;>
        simp [try_impl_device_types, ha, hb]

/-- C1 witness: with flags = NO_MODE_SETTING only the Dummy backend is
attempted; with flags = 0 and an all-failing environment both Atomic and Simple
are attempted, in that order. -/
theorem create_backend_selection_witness :
    (meta_create_kms_impl_device ginitFail "/dev/dri/card0" 4).2 = [ImplDeviceGType.dummy] ∧
    (meta_create_kms_impl_device ginitFail "/dev/dri/card0" 0).2 =
      [ImplDeviceGType.atomic, ImplDeviceGType.simple] := by
  refine ⟨(create_backend_selection ginitFail "/dev/dri/card0" 4).1 (by decide), ?_⟩
  have h := (create_backend_selection ginitFail "/dev/dri/card0" 0).2 rfl
  simpa [ginitFail] using h

/-- C2: when the no-mode-setting flag is unset and both candidates (Atomic and
Simple) fail to construct, `meta_kms_device_new` surfaces the single
"No suitable mode setting backend found" error and returns no device. -/
theorem device_new_no_suitable_backend (ginit : GInitableNew) (path : String) (flags : Nat)
    (ea eb : GError)
    (hflag : flags &&& META_KMS_DEVICE_FLAG_NO_MODE_SETTING = 0)
    (ha : ginit ImplDeviceGType.atomic path flags = Except.error ea)
    (hb : ginit ImplDeviceGType.simple path flags = Except.error eb) :
    meta_kms_device_new ginit path flags = Except.error noSuitableBackendError := by
  rw [meta_kms_device_new, meta_create_kms_impl_device, if_neg (fun hc => hc hflag)]
  simp [try_impl_device_types, ha, hb]

/-- C2 witness: in an all-failing environment construction returns exactly the
no-suitable-backend error. -/
theorem device_new_no_suitable_backend_witness :
    meta_kms_device_new ginitFail "/dev/dri/card0" 0 =
      Except.error noSuitableBackendError :=
  device_new_no_suitable_backend ginitFail "/dev/dri/card0" 0
    { domain := META_KMS_ERROR, message := "construction failed" }
    { domain := META_KMS_ERROR, message := "construction failed" }
    rfl rfl rfl

/-- C3: when the backend reports a non-empty change set, all three cached
sequences of the device are replaced wholesale with fresh copies of the
backend's lists (and the change set is passed through). -/
theorem update_states_nonempty_replaces_all
    (impl_update_states : MetaKmsImplDevice → Nat → Nat → Nat × MetaKmsImplDevice)
    (device : MetaKmsDevice) (crtc_id connector_id : Nat)
    (h : (impl_update_states device.impl_device crtc_id connector_id).1 ≠
      META_KMS_UPDATE_CHANGE_NONE) :
    (meta_kms_device_update_states_in_impl impl_update_states device crtc_id connector_id).1 =
      (impl_update_states device.impl_device crtc_id connector_id).1 ∧
    (meta_kms_device_update_states_in_impl impl_update_states device crtc_id connector_id).2.crtcs =
      meta_kms_impl_device_copy_crtcs
        (impl_update_states device.impl_device crtc_id connector_id).2 ∧
    (meta_kms_device_update_states_in_impl impl_update_states device
        crtc_id connector_id).2.connectors =
      meta_kms_impl_device_copy_connectors
        (impl_update_states device.impl_device crtc_id connector_id).2 ∧
    (meta_kms_device_update_states_in_impl impl_update_states device crtc_id connector_id).2.planes =
      meta_kms_impl_device_copy_planes
        (impl_update_states device.impl_device crtc_id connector_id).2 := by
  rw [meta_kms_device_update_states_in_impl]
  simp only [if_neg h]
  exact ⟨trivial, trivial, trivial, trivial⟩

/-- C3 witness: a changed backend state `implB` is adopted into all three
cached sequences of `deviceA`. -/
theorem update_states_nonempty_witness :
    (meta_kms_device_update_states_in_impl updateStatesToB deviceA 31 41).2.crtcs =
      implB.crtcs ∧
    (meta_kms_device_update_states_in_impl updateStatesToB deviceA 31 41).2.connectors =
      implB.connectors ∧
    (meta_kms_device_update_states_in_impl updateStatesToB deviceA 31 41).2.planes =
      implB.planes := by
  have h := update_states_nonempty_replaces_all updateStatesToB deviceA 31 41 (by decide)
  exact ⟨h.2.1, h.2.2.1, h.2.2.2⟩

/-- C4: when the backend reports an empty change set, the cached crtcs,
connectors and planes sequences are exactly the ones from before the call, and
the empty change set is returned. -/
theorem update_states_empty_noop
    (impl_update_states : MetaKmsImplDevice → Nat → Nat → Nat × MetaKmsImplDevice)
    (device : MetaKmsDevice) (crtc_id connector_id : Nat)
    (h : (impl_update_states device.impl_device crtc_id connector_id).1 =
      META_KMS_UPDATE_CHANGE_NONE) :
    (meta_kms_device_update_states_in_impl impl_update_states device crtc_id connector_id).1 =
      META_KMS_UPDATE_CHANGE_NONE ∧
    (meta_kms_device_update_states_in_impl impl_update_states device crtc_id connector_id).2.crtcs =
      device.crtcs ∧
    (meta_kms_device_update_states_in_impl impl_update_states device
        crtc_id connector_id).2.connectors =
      device.connectors ∧
    (meta_kms_device_update_states_in_impl impl_update_states device crtc_id connector_id).2.planes =
      device.planes := by
  rw [meta_kms_device_update_states_in_impl]
  simp only [h, if_pos]
  exact ⟨trivial, trivial, trivial, trivial⟩

/-- C4 witness: under an empty change set the cached sequences of `deviceA` are
untouched even though the backend state moved to `implB`. -/
theorem update_states_empty_witness :
    (meta_kms_device_update_states_in_impl updateStatesNone deviceA 31 41).2.crtcs =
      deviceA.crtcs ∧
    (meta_kms_device_update_states_in_impl updateStatesNone deviceA 31 41).2.planes =
      deviceA.planes := by
  have h := update_states_empty_noop updateStatesNone deviceA 31 41 (by decide)
  exact ⟨h.2.1, h.2.2.2⟩

/-- C5: `process_update_sync` forwards the backend result unchanged, and that
result is exactly one of a feedback object or an error — never both, never
neither. -/
theorem process_update_sync_feedback_xor_error
    (impl_process_update :
      MetaKmsImplDevice → MetaKmsUpdate → Nat → Except GError MetaKmsFeedback)
    (device : MetaKmsDevice) (update : MetaKmsUpdate) (flags : Nat) :
    meta_kms_device_process_update_sync impl_process_update device update flags =
      impl_process_update device.impl_device update flags ∧
    ((∃ feedback,
        meta_kms_device_process_update_sync impl_process_update device update flags =
          Except.ok feedback ∧
        ∀ e, meta_kms_device_process_update_sync impl_process_update device update flags ≠
          Except.error e) ∨
      (∃ e,
        meta_kms_device_process_update_sync impl_process_update device update flags =
          Except.error e ∧
        ∀ feedback,
          meta_kms_device_process_update_sync impl_process_update device update flags ≠
            Except.ok feedback)) := by
  refine ⟨rfl, ?_⟩
  cases h : meta_kms_device_process_update_sync impl_process_update device update flags with
  | ok feedback =>
    exact Or.inl ⟨feedback, rfl, fun e he => by cases he⟩
  | error e =>
    exact Or.inr ⟨e, rfl, fun feedback hf => by cases hf⟩

/-- Helper for C6: the candidate-plane scan equals `List.find?` of the combined
predicate (type matches and the plane is usable with the CRTC), i.e. it returns
the first such list element and `none` when there is none. -/
theorem get_plane_with_type_for_loop_eq_find (crtc : MetaKmsCrtc) (t : MetaKmsPlaneType)
    (l : List MetaKmsPlane) :
    get_plane_with_type_for_loop crtc t l =
      l.find? (fun plane =>
        decide (meta_kms_plane_get_plane_type plane = t) &&
          meta_kms_plane_is_usable_with plane crtc) := by
  induction l with
  | nil => rfl
  | cons plane l ih =>
    by_cases ht : meta_kms_plane_get_plane_type plane = t
    · cases hu : meta_kms_plane_is_usable_with plane crtc with
      | true =>
        rw [List.find?_cons_of_pos _ (by simp [ht, hu])]
        simp [get_plane_with_type_for_loop, ht, hu]
      | false =>
        rw [List.find?_cons_of_neg _ (by simp [ht, hu])]
        simp [get_plane_with_type_for_loop, ht, hu, ih]
    · rw [List.find?_cons_of_neg _ (by simp [ht])]
      simp [get_plane_with_type_for_loop, ht, ih]

/-- C6: `primary_plane_for` / `cursor_plane_for` return the first plane of the
cached plane sequence whose type matches and which satisfies
`is_usable_with(plane, crtc)`; `List.find?` is `none` (not found, not an error)
exactly when no such plane exists. -/
theorem plane_query_first_matching (device : MetaKmsDevice) (crtc : MetaKmsCrtc) :
    meta_kms_device_get_primary_plane_for device crtc =
      (meta_kms_device_get_planes device).find? (fun plane =>
        decide (meta_kms_plane_get_plane_type plane = MetaKmsPlaneType.primary) &&
          meta_kms_plane_is_usable_with plane crtc) ∧
    meta_kms_device_get_cursor_plane_for device crtc =
      (meta_kms_device_get_planes device).find? (fun plane =>
        decide (meta_kms_plane_get_plane_type plane = MetaKmsPlaneType.cursor) &&
          meta_kms_plane_is_usable_with plane crtc) :=
  ⟨get_plane_with_type_for_loop_eq_find crtc MetaKmsPlaneType.primary
      (meta_kms_device_get_planes device),
   get_plane_with_type_for_loop_eq_find crtc MetaKmsPlaneType.cursor
      (meta_kms_device_get_planes device)⟩

/-- Helper for C7: the value `meta_kms_device_new` produces on a successful
construction task, as a function of the adopted impl device. -/
theorem meta_kms_device_new_ok (ginit : GInitableNew) (path : String) (flags : Nat)
    (impl_device : MetaKmsImplDevice)
    (hc : (meta_create_kms_impl_device ginit path flags).1 = Except.ok impl_device) :
    meta_kms_device_new ginit path flags = Except.ok
      { impl_device := impl_device
        flags := if impl_device.caps.addfb2_modifiers then
            flags ||| META_KMS_DEVICE_FLAG_HAS_ADDFB2
          else flags
        path := impl_device.path
        crtcs := impl_device.crtcs
        connectors := impl_device.connectors
        planes := impl_device.planes
        caps := impl_device.caps
        fallback_modes := impl_device.fallback_modes
        driver_name := impl_device.driver_name
        driver_description := impl_device.driver_description } := by
  rw [meta_kms_device_new, hc]
  cases hb : impl_device.caps.addfb2_modifiers <;>
    simp [hb, meta_kms_impl_device_copy_crtcs, meta_kms_impl_device_copy_connectors,
      meta_kms_impl_device_copy_planes]

/-- C7 counterexample: the claim's equivalence "HAS_ADDFB2 is set iff the
backend has addfb2_modifiers" fails when the caller already passes the
HAS_ADDFB2 bit: construction through a backend without `addfb2_modifiers`
(here `implB`) still yields a device whose HAS_ADDFB2 bit (bit 3) is set. -/
theorem device_new_addfb2_iff_counterexample :
    meta_kms_device_new ginitAtomicB "/dev/dri/requested" META_KMS_DEVICE_FLAG_HAS_ADDFB2 =
      Except.ok deviceB8 ∧
    Nat.testBit deviceB8.flags 3 = true ∧
    deviceB8.caps.addfb2_modifiers = false := by
  refine ⟨?_, by decide, rfl⟩
  have h := meta_kms_device_new_ok ginitAtomicB "/dev/dri/requested"
    META_KMS_DEVICE_FLAG_HAS_ADDFB2 implB (by rfl)
  rw [h]
  rfl

/-- C7 (amended): on every successful construction the device adopts the
backend-reported canonical path and the backend capability struct; the
HAS_ADDFB2 bit (bit 3) is set iff the backend has `addfb2_modifiers` or the
caller already requested that bit; every other flag bit is adopted exactly as
passed. -/
theorem device_new_adopts_backend_outputs (ginit : GInitableNew) (path : String)
    (flags : Nat) (d : MetaKmsDevice)
    (h : meta_kms_device_new ginit path flags = Except.ok d) :
    (meta_create_kms_impl_device ginit path flags).1 = Except.ok d.impl_device ∧
    d.path = d.impl_device.path ∧
    d.caps = d.impl_device.caps ∧
    (d.flags.testBit 3 = true ↔
      (d.caps.addfb2_modifiers = true ∨ flags.testBit 3 = true)) ∧
    (∀ i, i ≠ 3 → d.flags.testBit i = flags.testBit i) := by
  cases hc : (meta_create_kms_impl_device ginit path flags).1 with
  | error e =>
    rw [meta_kms_device_new, hc] at h
    cases h
  | ok impl_device =>
    have h2 := meta_kms_device_new_ok ginit path flags impl_device hc
    rw [h] at h2
    injection h2 with h2
    subst h2
    refine ⟨rfl, rfl, rfl, ?_, ?_⟩
    · cases hb : impl_device.caps.addfb2_modifiers with
      | true =>
        simp [hb, META_KMS_DEVICE_FLAG_HAS_ADDFB2, Nat.testBit_lor,
          show Nat.testBit 8 3 = true from by decide]
      | false => simp [hb]
    · intro i hi
      cases hb : impl_device.caps.addfb2_modifiers with
      | true =>
        have h8 : Nat.testBit 8 i = false := by
          rw [show (8:Nat) = 2^3 from rfl]
          exact Nat.testBit_two_pow_of_ne (fun hh => hi hh.symm)
        simp [hb, META_KMS_DEVICE_FLAG_HAS_ADDFB2, Nat.testBit_lor, h8]
      | false => simp [hb]

/-- C7 witness: a concrete successful construction through the Atomic backend
adopting `implA`; its path is the backend-reported one and flag bit 2 is
adopted as passed. -/
theorem device_new_adopts_backend_outputs_witness :
    deviceA.path = deviceA.impl_device.path ∧
    deviceA.flags.testBit 2 = (0 : Nat).testBit 2 := by
  have h := device_new_adopts_backend_outputs ginitAtomicA "/dev/dri/requested" 0 deviceA rfl
  exact ⟨h.2.1, h.2.2.2.2 2 (by decide)⟩

/-- C8: disable is idempotent — a second disable right after a first one
produces no error (the function surfaces none by construction: the error
out-parameter of the dispatch is NULL) and leaves the device in the same
disabled state. -/
theorem disable_idempotent (device : MetaKmsDevice) :
    meta_kms_device_disable (meta_kms_device_disable device) =
      meta_kms_device_disable device := rfl

/-- C10: `get_cursor_size` returns true and writes both cursor dimensions
exactly when the capability struct carries a cursor size; otherwise it returns
false and leaves both out-parameters unmodified. -/
theorem get_cursor_size_spec (device : MetaKmsDevice) (w h : Nat) :
    ((meta_kms_device_get_cursor_size device w h).1 = true ↔
      device.caps.has_cursor_size = true) ∧
    (device.caps.has_cursor_size = true →
      (meta_kms_device_get_cursor_size device w h).2.1 = device.caps.cursor_width ∧
      (meta_kms_device_get_cursor_size device w h).2.2 = device.caps.cursor_height) ∧
    (device.caps.has_cursor_size = false →
      (meta_kms_device_get_cursor_size device w h).2.1 = w ∧
      (meta_kms_device_get_cursor_size device w h).2.2 = h) := by
  cases hc : device.caps.has_cursor_size <;>
    simp [meta_kms_device_get_cursor_size, hc]

/-- C10 witness: `deviceA` carries a 64x64 cursor size, so the out-parameters
are written; `deviceB` carries none, so the out-parameters keep their previous
contents. -/
theorem get_cursor_size_witness :
    (meta_kms_device_get_cursor_size deviceA 7 9).2.1 = 64 ∧
    (meta_kms_device_get_cursor_size deviceB 7 9).2.1 = 7 := by
  have ha := (get_cursor_size_spec deviceA 7 9).2.1 rfl
  have hb := (get_cursor_size_spec deviceB 7 9).2.2 rfl
  exact ⟨ha.1.trans rfl, hb.1⟩

end MetaKms
